import Mathlib

/-!
Verification of the quickstart handler templates.

The repository holds two template files:

* `src/templates/iii/quickstart/services/data-service/data_service.py` —
  an `iii` worker function `transform_handler` that validates its payload
  against the Pydantic model `TransformInput` (one required field `data`
  of mapping type), fetches a worker version from shared state, sleeps,
  and returns a transformed output dictionary.
* `src/templates/quickstart/src/python_step.py` — a `motia` event step
  whose `handler` logs a line and emits one event.

The embedding below models Python values as `JValue`, Python dicts as
insertion-ordered association lists, the external world (the shared-state
store's response and the wall clock) as an explicit `World` argument, and
the handlers' side effects as explicit effect traces.
-/

/-- Python/JSON runtime values as they cross the handler boundary:
strings, integers, booleans, `None`, lists, and insertion-ordered
dictionaries with string keys. -/
inductive JValue where
  | str : String → JValue
  | num : Int → JValue
  | bool : Bool → JValue
  | null : JValue
  | arr : List JValue → JValue
  | obj : List (String × JValue) → JValue

/-- A Python dict payload: an insertion-ordered association list from
string keys to values. -/
abbrev Payload := List (String × JValue)

/-- Dictionary key access (first match, mirroring a Python dict where
keys are unique). -/
def dictGet : Payload → String → Option JValue
  | [], _ => none
  | (k, v) :: rest, key => if k = key then some v else dictGet rest key

/-- A single quote character, used by Python `repr`. -/
def pyQuote : String := String.singleton (Char.ofNat 39)

mutual

/-- Python `repr` of a value (quotes strings, renders dicts with braces),
as used for values interpolated inside containers. -/
def JValue.pyRepr : JValue → String
  | .str s => pyQuote ++ s ++ pyQuote
  | .num n => toString n
  | .bool b => cond b "True" "False"
  | .null => "None"
  | .arr xs => "[" ++ String.intercalate ", " (pyReprList xs) ++ "]"
  | .obj kvs => "\x7b" ++ String.intercalate ", " (pyReprObj kvs) ++ "\x7d"

/-- `repr` of each element of a Python list. -/
def pyReprList : List JValue → List String
  | [] => []
  | x :: xs => x.pyRepr :: pyReprList xs

/-- `repr` of each `key: value` entry of a Python dict. -/
def pyReprObj : List (String × JValue) → List String
  | [] => []
  | (k, v) :: kvs => (pyQuote ++ k ++ pyQuote ++ ": " ++ v.pyRepr) :: pyReprObj kvs

end

/-- Python `str` of a value, as used by f-string interpolation
(`f"worker version {worker_version}"`): strings render unquoted, all
other values render as their `repr`. -/
def JValue.pyStr : JValue → String
  | .str s => s
  | v => v.pyRepr

/-- One Pydantic field-level error descriptor, per the schema-validation
interface of the spec: the error kind (`type`), the field path (`loc`)
naming the offending field, and a human message (`msg`). -/
structure FieldError where
  type : String
  loc : List String
  msg : String
deriving DecidableEq

/-- The dictionary form of one error descriptor, as produced by
Pydantic's `e.errors()`. -/
def FieldError.toJValue (e : FieldError) : JValue :=
  .obj [("type", .str e.type), ("loc", .arr (e.loc.map .str)), ("msg", .str e.msg)]

/-- The value stored under `"details"` in the failure output: the list
of error-descriptor dictionaries from `e.errors()`. -/
def errorsToJValue (es : List FieldError) : JValue :=
  .arr (es.map FieldError.toJValue)

/-- `class TransformInput(BaseModel): data: dict` — the data service's
input schema: one required field `data` of mapping type. -/
structure TransformInput where
  data : Payload

/-- `TransformInput.model_validate(payload)`: succeeds when the payload
carries a `data` key holding a mapping (extra keys are ignored, the
Pydantic default); otherwise raises a `ValidationError` carrying one
descriptor for the `data` field — `missing` when the key is absent,
`dict_type` when its value is not a mapping. -/
def TransformInput.model_validate (payload : Payload) :
    Except (List FieldError) TransformInput :=
  match dictGet payload "data" with
  | none => .error [⟨"missing", ["data"], "Field required"⟩]
  | some (.obj d) => .ok ⟨d⟩
  | some _ => .error [⟨"dict_type", ["data"], "Input should be a valid dictionary"⟩]

/-- The external world one invocation of `transform_handler` runs
against: the response the shared-state store gives to
`iii.call("state::get", ...)`, and the wall clock at invocation (which
the handler never reads — `asyncio.sleep(0.5)` only suspends). -/
structure World where
  stateResp : JValue
  clock : Nat

/-- The observable side effects of one `transform_handler` invocation,
in order. -/
inductive Effect where
  | logError : List FieldError → Effect
  | call : String → Payload → Effect
  | logInfo : String → Effect
  | sleep : Nat → Effect

/-- `transform_handler(payload)` from `data_service.py`: validate the
payload against `TransformInput`; on failure log the error and return
`{"error": "Invalid payload", "details": e.errors()}` immediately; on
success fetch `WORKER_VERSION` from the shared state scope, log, sleep
0.5 s (500 ms), and return the transformed output. Returns the ordered
effect trace together with the returned dictionary. -/
def transform_handler (payload : Payload) (w : World) :
    List Effect × Payload :=
  match TransformInput.model_validate payload with
  | .error e =>
      ([.logError e],
       [("error", .str "Invalid payload"), ("details", errorsToJValue e)])
  | .ok validated =>
      let worker_version := w.stateResp
      ([.call "state::get" [("scope", .str "shared"), ("key", .str "WORKER_VERSION")],
        .logInfo "Processing data with data-service...",
        .sleep 500],
       [("transformed", .obj validated.data),
        ("keys", .arr (validated.data.map (fun kv => .str kv.1))),
        ("source", .str "data-service"),
        ("worker-version", .str ("worker version " ++ worker_version.pyStr))])

/-- `class Input(BaseModel): extra: str` — the python step's input
schema: one required field `extra` of text type. -/
structure Input where
  extra : String

/-- `Input.model_json_schema()` — the JSON schema Pydantic generates for
`Input`, embedded in the step config's trigger. -/
def Input.model_json_schema : JValue :=
  .obj [("properties", .obj [("extra", .obj [("title", .str "Extra"), ("type", .str "string")])]),
        ("required", .arr [.str "extra"]),
        ("title", .str "Input"),
        ("type", .str "object")]

/-- One entry of the step config's `triggers` list. -/
structure Trigger where
  type : String
  topic : String
  input : JValue

/-- The step config record of `python_step.py`: name, description,
triggers, the emitted topics, flows, and the virtual emit/subscribe
lists. -/
structure StepConfig where
  name : String
  description : String
  triggers : List Trigger
  emits : List String
  flows : List String
  virtualEmits : List String
  virtualSubscribes : List String

/-- The `config` dictionary of `python_step.py`. -/
def config : StepConfig :=
  ⟨"HelloFromPython",
   "Say hello from Python!",
   [⟨"event", "hello", Input.model_json_schema⟩],
   ["hello.response.python"],
   ["hello"],
   [],
   []⟩

/-- The observable side effects of one python step `handler`
invocation, in order: log lines and events emitted through `ctx.emit`
(topic plus data payload). -/
inductive StepEffect where
  | logInfo : String → StepEffect
  | emit : String → Payload → StepEffect

/-- True exactly on `emit` effects. -/
def StepEffect.isEmit : StepEffect → Bool
  | .emit _ _ => true
  | _ => false

/-- `handler(input, ctx)` from `python_step.py`: logs
"Hello from Python!", then emits one event on topic
`hello.response.python` with data `{"extra": "py"}`, and returns `None`.
Returns the ordered effect trace together with the Python return value. -/
def handler (input : Input) : List StepEffect × JValue :=
  ([.logInfo "Hello from Python!",
    .emit "hello.response.python" [("extra", .str "py")]],
   .null)

example : (transform_handler [("data", .obj [("a", .num 1), ("b", .num 2)])] ⟨.str "1.0.0", 0⟩).2 =
    [("transformed", .obj [("a", .num 1), ("b", .num 2)]),
     ("keys", .arr [.str "a", .str "b"]),
     ("source", .str "data-service"),
     ("worker-version", .str "worker version 1.0.0")] := rfl

example : (transform_handler [] ⟨.str "1.0.0", 0⟩).2 =
    [("error", .str "Invalid payload"),
     ("details", .arr [.obj [("type", .str "missing"), ("loc", .arr [.str "data"]), ("msg", .str "Field required")]])] := rfl

/-! ### Helper lemmas -/

/-- A payload whose `data` key holds a mapping validates successfully,
any extra keys notwithstanding. -/
theorem model_validate_ok (p d : Payload)
    (h : dictGet p "data" = some (.obj d)) :
    TransformInput.model_validate p = .ok ⟨d⟩ := by
  unfold TransformInput.model_validate
  rw [h]

/-- A payload whose `data` key is absent, or present but not a mapping,
fails validation with a non-empty error list whose every descriptor
names the `data` field. -/
theorem model_validate_err_of_invalid (p : Payload)
    (h : dictGet p "data" = none ∨
         ∃ v, dictGet p "data" = some v ∧ ∀ d, v ≠ JValue.obj d) :
    ∃ errs : List FieldError, errs ≠ [] ∧
      TransformInput.model_validate p = .error errs ∧
      ∀ e ∈ errs, e.loc = ["data"] := by
  rcases h with h | ⟨v, hv, hne⟩
  · exact ⟨[⟨"missing", ["data"], "Field required"⟩], by simp,
      by unfold TransformInput.model_validate; rw [h], by simp⟩
  · cases v with
    | obj d => exact absurd rfl (hne d)
    | str s => exact ⟨[⟨"dict_type", ["data"], "Input should be a valid dictionary"⟩], by simp,
        by unfold TransformInput.model_validate; rw [hv], by simp⟩
    | num n => exact ⟨[⟨"dict_type", ["data"], "Input should be a valid dictionary"⟩], by simp,
        by unfold TransformInput.model_validate; rw [hv], by simp⟩
    | bool b => exact ⟨[⟨"dict_type", ["data"], "Input should be a valid dictionary"⟩], by simp,
        by unfold TransformInput.model_validate; rw [hv], by simp⟩
    | null => exact ⟨[⟨"dict_type", ["data"], "Input should be a valid dictionary"⟩], by simp,
        by unfold TransformInput.model_validate; rw [hv], by simp⟩
    | arr xs => exact ⟨[⟨"dict_type", ["data"], "Input should be a valid dictionary"⟩], by simp,
        by unfold TransformInput.model_validate; rw [hv], by simp⟩

/-- The handler's success path, fully evaluated. -/
theorem transform_handler_ok (p d : Payload) (w : World)
    (h : dictGet p "data" = some (.obj d)) :
    transform_handler p w =
      ([.call "state::get" [("scope", .str "shared"), ("key", .str "WORKER_VERSION")],
        .logInfo "Processing data with data-service...",
        .sleep 500],
       [("transformed", .obj d),
        ("keys", .arr (d.map (fun kv => .str kv.1))),
        ("source", .str "data-service"),
        ("worker-version", .str ("worker version " ++ w.stateResp.pyStr))]) := by
  unfold transform_handler
  rw [model_validate_ok p d h]

/-- The handler's failure path, fully evaluated. -/
theorem transform_handler_err (p : Payload) (w : World) (errs : List FieldError)
    (h : TransformInput.model_validate p = .error errs) :
    transform_handler p w =
      ([.logError errs],
       [("error", .str "Invalid payload"), ("details", errorsToJValue errs)]) := by
  unfold transform_handler
  rw [h]

/-! ### Claim theorems -/

/-- C1 counterexample: on payload `{"data": {"a": 1}}` the success
output's "keys" field is `["a"]` — the keys of the `data` mapping —
while the payload's own insertion-order top-level key list is
`["data"]`, and the two differ. So "keys" does not equal the list of
the payload's top-level keys. -/
theorem C1_counterexample :
    dictGet (transform_handler [("data", JValue.obj [("a", JValue.num 1)])] ⟨.str "1", 0⟩).2 "keys" =
      some (.arr [.str "a"]) ∧
    ([("data", JValue.obj [("a", JValue.num 1)])] : Payload).map Prod.fst = ["data"] ∧
    some (JValue.arr [.str "a"]) ≠ some (JValue.arr [.str "data"]) := by
  refine ⟨rfl, rfl, ?_⟩
  simp

/-- C1 (amended): for every payload whose required `data` field is
present and of mapping type, `transform_handler` returns a success-path
output whose "keys" field equals the insertion-order list of the
top-level keys of the payload's `data` mapping, and whose "source" tag
equals the literal handler name "data-service". -/
theorem C1_keys_and_source (p d : Payload) (w : World)
    (h : dictGet p "data" = some (.obj d)) :
    dictGet (transform_handler p w).2 "keys" = some (.arr (d.map (fun kv => .str kv.1))) ∧
    dictGet (transform_handler p w).2 "source" = some (.str "data-service") := by
  rw [transform_handler_ok p d w h]
  exact ⟨rfl, rfl⟩

/-- C1 witness: the amended statement at the concrete payload
`{"data": {"x": 7}}`. -/
theorem C1_keys_and_source_witness :
    dictGet (transform_handler [("data", JValue.obj [("x", JValue.num 7)])] ⟨.str "2", 3⟩).2 "keys" =
      some (.arr (([("x", JValue.num 7)] : Payload).map (fun kv => .str kv.1))) ∧
    dictGet (transform_handler [("data", JValue.obj [("x", JValue.num 7)])] ⟨.str "2", 3⟩).2 "source" =
      some (.str "data-service") :=
  C1_keys_and_source [("data", .obj [("x", .num 7)])] [("x", .num 7)] ⟨.str "2", 3⟩ rfl

/-- C2 counterexample: on input `{"data": {"a": 1, "b": 2}}` (with the
state store answering "1.0.0") the returned dictionary's key list is
not `["transformed", "keys", "source"]` — the output carries a fourth
key, "worker-version" — so the output is not exactly the claimed
three-key mapping. -/
theorem C2_counterexample :
    ((transform_handler [("data", JValue.obj [("a", JValue.num 1), ("b", JValue.num 2)])]
        ⟨.str "1.0.0", 0⟩).2).map Prod.fst ≠ ["transformed", "keys", "source"] := by
  decide

/-- C2 (amended): on input `{"data": {"a": 1, "b": 2}}` the handler
returns exactly the mapping with the three claimed entries
`transformed = {"a": 1, "b": 2}`, `keys = ["a", "b"]`,
`source = "data-service"` plus one additional entry, "worker-version",
whose value interpolates the externally fetched worker version. -/
theorem C2_output_exact (w : World) :
    (transform_handler [("data", JValue.obj [("a", JValue.num 1), ("b", JValue.num 2)])] w).2 =
      [("transformed", .obj [("a", .num 1), ("b", .num 2)]),
       ("keys", .arr [.str "a", .str "b"]),
       ("source", .str "data-service"),
       ("worker-version", .str ("worker version " ++ w.stateResp.pyStr))] := by
  rw [transform_handler_ok [("data", JValue.obj [("a", JValue.num 1), ("b", JValue.num 2)])]
    [("a", .num 1), ("b", .num 2)] w rfl]
  rfl

/-- C5: the payload `{"data": {}}` is accepted — validation succeeds,
the success output's "keys" field is the empty list, and the output
carries no "error" key, so it is not a validation error. -/
theorem C5_empty_data_accepted (w : World) :
    TransformInput.model_validate [("data", JValue.obj [])] = .ok ⟨[]⟩ ∧
    dictGet (transform_handler [("data", JValue.obj [])] w).2 "keys" = some (.arr []) ∧
    dictGet (transform_handler [("data", JValue.obj [])] w).2 "error" = none := by
  refine ⟨rfl, ?_, ?_⟩ <;>
    rw [transform_handler_ok [("data", JValue.obj [])] [] w rfl] <;> rfl

/-- C9: the success-path transformation is the identity on the `data`
field — for every payload whose `data` field is a mapping `d`, the
output's "transformed" field is `d` unchanged and its "keys" field
enumerates exactly the keys of that same mapping. -/
theorem C9_transform_identity (p d : Payload) (w : World)
    (h : dictGet p "data" = some (.obj d)) :
    dictGet (transform_handler p w).2 "transformed" = some (.obj d) ∧
    dictGet (transform_handler p w).2 "keys" = some (.arr (d.map (fun kv => .str kv.1))) := by
  rw [transform_handler_ok p d w h]
  exact ⟨rfl, rfl⟩

/-- C9 witness: the statement at the concrete payload
`{"data": {"k": null, "m": true}}`. -/
theorem C9_transform_identity_witness :
    dictGet (transform_handler [("data", JValue.obj [("k", JValue.null), ("m", JValue.bool true)])] ⟨.null, 5⟩).2 "transformed" =
      some (.obj [("k", JValue.null), ("m", JValue.bool true)]) ∧
    dictGet (transform_handler [("data", JValue.obj [("k", JValue.null), ("m", JValue.bool true)])] ⟨.null, 5⟩).2 "keys" =
      some (.arr (([("k", JValue.null), ("m", JValue.bool true)] : Payload).map (fun kv => .str kv.1))) :=
  C9_transform_identity [("data", .obj [("k", .null), ("m", .bool true)])]
    [("k", .null), ("m", .bool true)] ⟨.null, 5⟩ rfl

/-- C3: every payload whose `data` field is missing or not a mapping
makes `transform_handler` return (as a normal value) a failure-path
mapping with error tag "Invalid payload" and a non-empty ordered list
of error descriptors under "details", each naming the offending field
`data`; in particular the input `{}` yields that failure output with
one descriptor for the missing field `data`. -/
theorem C3_validation_failure (p : Payload) (w : World)
    (h : dictGet p "data" = none ∨
         ∃ v, dictGet p "data" = some v ∧ ∀ d, v ≠ JValue.obj d) :
    (∃ errs : List FieldError, errs ≠ [] ∧
      (transform_handler p w).2 =
        [("error", .str "Invalid payload"), ("details", errorsToJValue errs)] ∧
      ∀ e ∈ errs, e.loc = ["data"]) ∧
    (transform_handler [] w).2 =
      [("error", .str "Invalid payload"),
       ("details", .arr [.obj [("type", .str "missing"),
                               ("loc", .arr [.str "data"]),
                               ("msg", .str "Field required")]])] := by
  constructor
  · obtain ⟨errs, hne, hval, hloc⟩ := model_validate_err_of_invalid p h
    exact ⟨errs, hne, by rw [transform_handler_err p w errs hval], hloc⟩
  · rfl

/-- C3 witness: the statement at the concrete input `{}`. -/
theorem C3_validation_failure_witness :
    (dictGet ([] : Payload) "data" = none ∨
     ∃ v, dictGet ([] : Payload) "data" = some v ∧ ∀ d, v ≠ JValue.obj d) ∧
    ((∃ errs : List FieldError, errs ≠ [] ∧
       (transform_handler [] ⟨.str "1", 0⟩).2 =
         [("error", .str "Invalid payload"), ("details", errorsToJValue errs)] ∧
       ∀ e ∈ errs, e.loc = ["data"]) ∧
     (transform_handler [] ⟨.str "1", 0⟩).2 =
       [("error", .str "Invalid payload"),
        ("details", .arr [.obj [("type", .str "missing"),
                                ("loc", .arr [.str "data"]),
                                ("msg", .str "Field required")]])]) :=
  ⟨Or.inl rfl, C3_validation_failure [] ⟨.str "1", 0⟩ (Or.inl rfl)⟩

/-- C4: on every payload that fails validation the handler
short-circuits — its entire effect trace is the one error log (so no
`state::get` call and no sleep happen) and it returns the failure
output, never constructing the success-path dictionary. -/
theorem C4_failure_short_circuits (p : Payload) (w : World)
    (h : dictGet p "data" = none ∨
         ∃ v, dictGet p "data" = some v ∧ ∀ d, v ≠ JValue.obj d) :
    ∃ errs : List FieldError,
      (transform_handler p w).1 = [Effect.logError errs] ∧
      (∀ fn args, Effect.call fn args ∉ (transform_handler p w).1) ∧
      (∀ ms, Effect.sleep ms ∉ (transform_handler p w).1) ∧
      (transform_handler p w).2 =
        [("error", .str "Invalid payload"), ("details", errorsToJValue errs)] := by
  obtain ⟨errs, _, hval, _⟩ := model_validate_err_of_invalid p h
  refine ⟨errs, ?_, ?_, ?_, ?_⟩ <;> rw [transform_handler_err p w errs hval] <;> simp

/-- C4 witness: the statement at the concrete payload
`{"data": 5}` (wrong-typed `data` field). -/
theorem C4_failure_short_circuits_witness :
    (dictGet ([("data", JValue.num 5)] : Payload) "data" = none ∨
     ∃ v, dictGet ([("data", JValue.num 5)] : Payload) "data" = some v ∧
       ∀ d, v ≠ JValue.obj d) ∧
    (∃ errs : List FieldError,
      (transform_handler [("data", JValue.num 5)] ⟨.str "1", 0⟩).1 = [Effect.logError errs] ∧
      (∀ fn args, Effect.call fn args ∉ (transform_handler [("data", JValue.num 5)] ⟨.str "1", 0⟩).1) ∧
      (∀ ms, Effect.sleep ms ∉ (transform_handler [("data", JValue.num 5)] ⟨.str "1", 0⟩).1) ∧
      (transform_handler [("data", JValue.num 5)] ⟨.str "1", 0⟩).2 =
        [("error", .str "Invalid payload"), ("details", errorsToJValue errs)]) :=
  ⟨Or.inr ⟨.num 5, rfl, fun d hd => JValue.noConfusion hd⟩,
   C4_failure_short_circuits [("data", .num 5)] ⟨.str "1", 0⟩
     (Or.inr ⟨.num 5, rfl, fun d hd => JValue.noConfusion hd⟩)⟩

/-- C6: on the validated input `{"extra": "hello"}` the python step
handler's emit effects are exactly one event, on topic
"hello.response.python" with data `{"extra": "py"}`, and the handler
returns `None` (no other output). -/
theorem C6_hello_emits_once :
    (handler ⟨"hello"⟩).1 =
      [.logInfo "Hello from Python!",
       .emit "hello.response.python" [("extra", .str "py")]] ∧
    (handler ⟨"hello"⟩).1.filter StepEffect.isEmit =
      [.emit "hello.response.python" [("extra", .str "py")]] ∧
    (handler ⟨"hello"⟩).2 = .null :=
  ⟨rfl, rfl, rfl⟩

/-- C7: unknown fields are ignored — every payload carrying a `data`
mapping `d` plus arbitrary other top-level fields validates
successfully, the handler behaves exactly as on the payload
`{"data": d}` alone, and the output's keys are the fixed four, so the
unknown fields neither appear in nor alter the output. -/
theorem C7_unknown_fields_ignored (p d : Payload) (w : World)
    (h : dictGet p "data" = some (.obj d)) :
    TransformInput.model_validate p = .ok ⟨d⟩ ∧
    transform_handler p w = transform_handler [("data", JValue.obj d)] w ∧
    ((transform_handler p w).2).map Prod.fst =
      ["transformed", "keys", "source", "worker-version"] := by
  refine ⟨model_validate_ok p d h, ?_, ?_⟩
  · rw [transform_handler_ok p d w h, transform_handler_ok [("data", JValue.obj d)] d w rfl]
  · rw [transform_handler_ok p d w h]
    rfl

/-- C7 witness: the statement at the concrete payload
`{"junk": 9, "data": {"a": 1}, "more": "x"}`. -/
theorem C7_unknown_fields_ignored_witness :
    dictGet ([("junk", JValue.num 9), ("data", JValue.obj [("a", JValue.num 1)]),
              ("more", JValue.str "x")] : Payload) "data" =
      some (.obj [("a", JValue.num 1)]) ∧
    (TransformInput.model_validate
        [("junk", JValue.num 9), ("data", JValue.obj [("a", JValue.num 1)]),
         ("more", JValue.str "x")] = .ok ⟨[("a", JValue.num 1)]⟩ ∧
     transform_handler
        [("junk", JValue.num 9), ("data", JValue.obj [("a", JValue.num 1)]),
         ("more", JValue.str "x")] ⟨.str "1", 0⟩ =
       transform_handler [("data", JValue.obj [("a", JValue.num 1)])] ⟨.str "1", 0⟩ ∧
     ((transform_handler
        [("junk", JValue.num 9), ("data", JValue.obj [("a", JValue.num 1)]),
         ("more", JValue.str "x")] ⟨.str "1", 0⟩).2).map Prod.fst =
       ["transformed", "keys", "source", "worker-version"]) :=
  ⟨rfl, C7_unknown_fields_ignored
    [("junk", .num 9), ("data", .obj [("a", .num 1)]), ("more", .str "x")]
    [("a", .num 1)] ⟨.str "1", 0⟩ rfl⟩

/-- C8: determinism — two invocations of `transform_handler` on the
same valid payload against worlds that return the same shared-state
response produce identical results (effect trace and output alike),
whatever the wall clock reads on either invocation; the output carries
no time-varying content. -/
theorem C8_deterministic (p d : Payload) (w₁ w₂ : World)
    (hp : dictGet p "data" = some (.obj d))
    (hs : w₁.stateResp = w₂.stateResp) :
    transform_handler p w₁ = transform_handler p w₂ := by
  rw [transform_handler_ok p d w₁ hp, transform_handler_ok p d w₂ hp, hs]

/-- C8 witness: the statement at the concrete payload
`{"data": {"a": 1}}` against two worlds with equal state responses but
different clocks. -/
theorem C8_deterministic_witness :
    dictGet ([("data", JValue.obj [("a", JValue.num 1)])] : Payload) "data" =
      some (.obj [("a", JValue.num 1)]) ∧
    (World.mk (.str "7") 1).stateResp = (World.mk (.str "7") 999).stateResp ∧
    transform_handler [("data", JValue.obj [("a", JValue.num 1)])] ⟨.str "7", 1⟩ =
      transform_handler [("data", JValue.obj [("a", JValue.num 1)])] ⟨.str "7", 999⟩ :=
  ⟨rfl, rfl,
   C8_deterministic [("data", .obj [("a", .num 1)])] [("a", .num 1)]
     ⟨.str "7", 1⟩ ⟨.str "7", 999⟩ rfl rfl⟩

/-- C10: the python step handler's emitted event is independent of its
input — any two validated inputs (any values of the `extra` field)
produce the same effect trace and return value, that trace's emit
effects are exactly one event, on topic "hello.response.python" with
data `{"extra": "py"}`, and every topic the handler emits is a member
of the step config's declared `emits` list. -/
theorem C10_emit_independent_of_input (i j : Input) :
    handler i = handler j ∧
    (handler i).1.filter StepEffect.isEmit =
      [.emit "hello.response.python" [("extra", .str "py")]] ∧
    ∀ t dp, StepEffect.emit t dp ∈ (handler i).1 → t ∈ config.emits := by
  refine ⟨rfl, rfl, ?_⟩
  intro t dp hmem
  have ht : t = "hello.response.python" := by
    simp [handler] at hmem
    exact hmem.1
  rw [ht]
  simp [config]
